import Mathlib

/-!
A shallow embedding of the notification / event-registration subsystem of the
Jataayu backend (`routes/eventRegistrations.js`, `routes/events.js`,
`services/notificationService.js`, `middleware/isAdmin.js`, `models/Event.js`,
`models/Notification.js`).

The document store is modelled as explicit lists of documents inside a `Db`
record; each handler becomes a pure function from a `Db` (plus the request
data) to a response and an updated `Db`.  Mongo ObjectIds are modelled as
strings, document creation timestamps as a monotonically increasing `Nat`
counter held in the `Db`.  Writes that can fail at the persistence layer
(`notification.save()`) take an explicit success flag, mirroring the fact
that `NotificationService.createNotification` logs and rethrows any save
error to its awaiting caller.
-/

namespace Jataayu

/-- Mongo ObjectIds, rendered as strings (the routes compare them with
`toString()` / string equality). -/
abbrev OId := String

/-- Schema `models/Notification.js`: recipient, title, message, type
(default `info`), read flag (default `false`), optional deep-link, creation
timestamp. -/
structure Notification where
  id : OId
  recipient : OId
  title : String
  message : String
  ntype : String
  read : Bool
  link : Option String
  createdAt : Nat
deriving DecidableEq, Repr

/-- Schema `models/Event.js`: title, description, location, district, date, optional
time, `createdBy` user reference and creation timestamp.  The schema defines
*no* `sharedWith` path (this matters for `listForEvent` below); the
`images` / `reports` attachment arrays are not touched by any claim and are
left out of the embedding. -/
structure Event where
  id : OId
  title : String
  description : String
  location : String
  district : String
  date : String
  time : Option String
  createdBy : OId
  createdAt : Nat
deriving DecidableEq, Repr

/-- Modelled from the spec: `models/EventRegistration.js` is required by the
routes but is not among the sources.  Fields follow the spec's data model:
reference to the event, registrant contact/demographic fields, a free-string
`status` (`pending` initially), a `sharedWith` list of user references
(empty for a fresh registration) and a creation timestamp. -/
structure EventRegistration where
  id : OId
  event : OId
  name : String
  email : String
  phone : String
  age : Int
  gender : String
  address : String
  district : String
  taluka : String
  village : String
  status : String
  sharedWith : List OId
  createdAt : Nat
deriving DecidableEq, Repr

/-- The document store: users are kept as their ids (the event fan-out only
needs `_id`), plus the three document collections, a fresh-id counter and the
clock used for `createdAt` stamps. -/
structure Db where
  users : List OId
  events : List Event
  registrations : List EventRegistration
  notifications : List Notification
  nextId : Nat
  time : Nat
deriving DecidableEq, Repr

/-- Fresh ObjectId for the next inserted document. -/
def freshId (db : Db) : OId := "oid" ++ toString db.nextId

/-- Lookup by id (`Model.findById`) over the events collection. -/
def findEvent (db : Db) (i : OId) : Option Event :=
  db.events.find? (fun e => e.id == i)

/-- Lookup by id (`Model.findById`) over the registrations collection. -/
def findRegistration (db : Db) (i : OId) : Option EventRegistration :=
  db.registrations.find? (fun r => r.id == i)

/-- Saving (`registration.save()`) an already-persisted document: replace the
stored document having the same id. -/
def saveRegistration (db : Db) (r : EventRegistration) : Db :=
  { db with registrations :=
      db.registrations.map (fun o => if o.id == r.id then r else o) }

/-- Build the notification document inserted by
`NotificationService.createNotification` (read defaults to `false`). -/
def mkNotification (i recipient : OId) (title message ntype : String)
    (link : Option String) (now : Nat) : Notification :=
  { id := i, recipient := recipient, title := title, message := message,
    ntype := ntype, read := false, link := link, createdAt := now }

/-- Insert one notification document (successful
`NotificationService.createNotification` call). -/
def addNotification (db : Db) (recipient : OId) (title message ntype : String)
    (link : Option String) : Db :=
  { db with
      notifications := db.notifications ++
        [mkNotification (freshId db) recipient title message ntype link db.time],
      nextId := db.nextId + 1,
      time := db.time + 1 }

/-! ### Notification service (`services/notificationService.js`) -/

/-- Ordering "newest first": the order produced by `.sort(\x7b createdAt: -1 \x7d)`. -/
def notifNewestFirst (a b : Notification) : Prop :=
  b.createdAt ≤ a.createdAt

instance : DecidableRel notifNewestFirst :=
  fun a b => Nat.decLe b.createdAt a.createdAt

instance : IsTotal Notification notifNewestFirst :=
  ⟨fun a b => Nat.le_total b.createdAt a.createdAt⟩

instance : IsTrans Notification notifNewestFirst :=
  ⟨fun _ _ _ h1 h2 => Nat.le_trans h2 h1⟩

/-- Query `Notification.find(\x7b recipient: userId \x7d).sort(\x7b createdAt: -1 \x7d)`:
all of the recipient's notifications, newest first. -/
def notificationsFor (db : Db) (userId : OId) : List Notification :=
  List.insertionSort notifNewestFirst
    (db.notifications.filter (fun n => n.recipient == userId))

/-- Result shape of `getUserNotifications`. -/
structure NotificationPage where
  notifications : List Notification
  totalPages : Nat
  currentPage : Nat
deriving DecidableEq, Repr

/-- Service method `NotificationService.getUserNotifications`: sort the recipient's
notifications newest first, `skip((page - 1) * limit)`, `limit(limit)`, and
report `totalPages = Math.ceil(total / limit)` (for positive `limit` the
JavaScript ceiling of the division is `(total + limit - 1) / limit` in `Nat`
arithmetic). -/
def getUserNotifications (db : Db) (userId : OId) (page limit : Nat) :
    NotificationPage :=
  let total := (db.notifications.filter (fun n => n.recipient == userId)).length
  { notifications :=
      ((notificationsFor db userId).drop ((page - 1) * limit)).take limit,
    totalPages := (total + limit - 1) / limit,
    currentPage := page }

/-- The per-document effect of
`updateMany(\x7b recipient, read: false \x7d, \x7b read: true \x7d)`: a stored
notification is replaced by its read-marked copy exactly when it matches the
update's filter. -/
def markRead (userId : OId) (n : Notification) : Notification :=
  if n.recipient == userId && !n.read then { n with read := true } else n

/-- Service method `NotificationService.markAllAsRead`:
`updateMany(\x7b recipient, read: false \x7d, \x7b read: true \x7d)`. -/
def markAllAsRead (db : Db) (userId : OId) : Db :=
  { db with notifications := db.notifications.map (markRead userId) }

/-- Service method `NotificationService.getUnreadCount`:
`countDocuments(\x7b recipient, read: false \x7d)`. -/
def getUnreadCount (db : Db) (userId : OId) : Nat :=
  (db.notifications.filter (fun n => n.recipient == userId && !n.read)).length

/-! ### Route handler results -/

/-- HTTP outcomes of the route handlers: `ok` is `res.json(...)` (200),
`created` is `res.status(201).json(...)`, `badRequest` is the 400
validation-error response carrying its error messages, and `forbidden`,
`notFound`, `serverError` are the 403 / 404 / 500 responses. -/
inductive Res (α : Type) where
  | ok (body : α)
  | created (body : α)
  | badRequest (errors : List String)
  | forbidden
  | notFound
  | serverError
deriving DecidableEq, Repr

/-! ### `routes/eventRegistrations.js` -/

/-- The body of `POST /` (register for an event).  `age` is modelled as the
integer value the `isInt` validator inspects. -/
structure RegisterRequest where
  event : OId
  name : String
  email : String
  phone : String
  age : Int
  gender : String
  address : String
  district : String
  taluka : String
  village : String
deriving DecidableEq, Repr

/-- The `express-validator` chain guarding `POST /`: every check runs and
every failing check contributes its message.  `isEmail` is the external
`validator.js` e-mail predicate, taken as a parameter. -/
def validateRegistration (isEmail : String → Bool) (r : RegisterRequest) :
    List String :=
  (if r.event = "" then ["Event ID is required"] else []) ++
  (if r.name = "" then ["Name is required"] else []) ++
  (if isEmail r.email then [] else ["Please include a valid email"]) ++
  (if r.phone = "" then ["Phone number is required"] else []) ++
  (if 1 ≤ r.age then [] else ["Age is required"]) ++
  (if r.gender = "male" ∨ r.gender = "female" ∨ r.gender = "other" then []
   else ["Gender is required"]) ++
  (if r.address = "" then ["Address is required"] else []) ++
  (if r.district = "" then ["District is required"] else []) ++
  (if r.taluka = "" then ["Taluka is required"] else []) ++
  (if r.village = "" then ["Village is required"] else [])

/-- Handler `POST /` on `routes/eventRegistrations.js`: on validation failure respond
400 with all collected messages; if the event id does not resolve respond
404; otherwise persist the registration with status `pending` and then await
`createNotification` to the event's creator.  `notifOk` models whether that
notification save succeeds; when it fails the service rethrows, the handler's
catch responds 500, and the already-saved registration stays persisted. -/
def register (isEmail : String → Bool) (db : Db) (req : RegisterRequest)
    (notifOk : Bool) : Res EventRegistration × Db :=
  let errs := validateRegistration isEmail req
  if errs ≠ [] then (.badRequest errs, db)
  else
    match findEvent db req.event with
    | none => (.notFound, db)
    | some ev =>
      let reg : EventRegistration :=
        { id := freshId db, event := req.event, name := req.name,
          email := req.email, phone := req.phone, age := req.age,
          gender := req.gender, address := req.address,
          district := req.district, taluka := req.taluka,
          village := req.village, status := "pending", sharedWith := [],
          createdAt := db.time }
      let db1 : Db :=
        { db with registrations := db.registrations ++ [reg],
                  nextId := db.nextId + 1, time := db.time + 1 }
      if notifOk then
        (.ok reg,
         addNotification db1 ev.createdBy "New Event Registration"
           (req.name ++ " has registered for your event \"" ++ ev.title ++ "\"")
           "info" (some ("/event-registrations/" ++ ev.id)))
      else (.serverError, db1)

/-- Ordering "newest first" for registrations (`.sort(\x7b createdAt: -1 \x7d)`). -/
def regNewestFirst (a b : EventRegistration) : Prop :=
  b.createdAt ≤ a.createdAt

instance : DecidableRel regNewestFirst :=
  fun a b => Nat.decLe b.createdAt a.createdAt

instance : IsTotal EventRegistration regNewestFirst :=
  ⟨fun a b => Nat.le_total b.createdAt a.createdAt⟩

instance : IsTrans EventRegistration regNewestFirst :=
  ⟨fun _ _ _ h1 h2 => Nat.le_trans h2 h1⟩

/-- Handler `GET /event/:eventId`: 404 when the event is missing.  When the requester
is the creator, the first conjunct of
`event.createdBy.toString() !== req.user.id && !event.sharedWith.includes(...)`
is false, the guard short-circuits, and the handler returns the event's
registrations newest first.  For any other requester the guard evaluates
`event.sharedWith.includes(req.user.id)`; the Event schema defines no
`sharedWith` path, so `event.sharedWith` is `undefined`, the member access
throws a `TypeError`, and the handler's catch responds 500 — the 403 branch
is unreachable. -/
def listForEvent (db : Db) (requester : OId) (eventId : OId) :
    Res (List EventRegistration) × Db :=
  match findEvent db eventId with
  | none => (.notFound, db)
  | some ev =>
    if ev.createdBy = requester then
      (.ok (List.insertionSort regNewestFirst
        (db.registrations.filter (fun r => r.event == eventId))), db)
    else (.serverError, db)

/-- JavaScript `[...new Set([...a, ...b])]`: elements of `a ++ b` keeping the first
occurrence of each, in order; `seen` accumulates the already-emitted ids. -/
def jsSetOfList (seen : List OId) : List OId → List OId
  | [] => []
  | x :: xs =>
    if seen.contains x then jsSetOfList seen xs
    else x :: jsSetOfList (x :: seen) xs

/-- The notification loop of `POST /share/:registrationId`: one
`createNotification` per supplied user id, in order (saves succeed). -/
def shareNotifyLoop (ev : Event) (ids : List OId) (db : Db) : Db :=
  ids.foldl (fun d u =>
    addNotification d u "Event Registration Shared"
      ("Event registration for \"" ++ ev.title ++ "\" has been shared with you")
      "info" (some ("/event-registrations/" ++ ev.id))) db

/-- Handler `POST /share/:registrationId`: 404 when the registration or its event is
missing; 403 unless the requester is the event's creator; otherwise, when the
body carries a `userIds` array, replace the registration's `sharedWith` by
the JavaScript-set union of the old list and the supplied ids, save it, and
notify every supplied id.  A body without a `userIds` array (`none`) skips
the whole block and just echoes the registration. -/
def share (db : Db) (requester : OId) (registrationId : OId)
    (userIds : Option (List OId)) : Res EventRegistration × Db :=
  match findRegistration db registrationId with
  | none => (.notFound, db)
  | some reg =>
    match findEvent db reg.event with
    | none => (.notFound, db)
    | some ev =>
      if ev.createdBy ≠ requester then (.forbidden, db)
      else
        match userIds with
        | none => (.ok reg, db)
        | some ids =>
          let reg' := { reg with
            sharedWith := jsSetOfList [] (reg.sharedWith ++ ids) }
          (.ok reg', shareNotifyLoop ev ids (saveRegistration db reg'))

/-- Handler `PUT /:registrationId/status`: 404 when the registration or its event is
missing; 403 unless the requester is the event's creator; otherwise persist
the caller-supplied status string verbatim and create one notification whose
`recipient` is the registration's own `_id` and whose message quotes the old
and the new status. -/
def updateStatus (db : Db) (requester : OId) (registrationId : OId)
    (newStatus : String) : Res EventRegistration × Db :=
  match findRegistration db registrationId with
  | none => (.notFound, db)
  | some reg =>
    match findEvent db reg.event with
    | none => (.notFound, db)
    | some ev =>
      if ev.createdBy ≠ requester then (.forbidden, db)
      else
        let reg' := { reg with status := newStatus }
        (.ok reg',
         addNotification (saveRegistration db reg') reg.id
           "Registration Status Updated"
           ("Your registration status for \"" ++ ev.title ++
            "\" has been updated from " ++ reg.status ++ " to " ++ newStatus)
           "info" (some ("/events/" ++ ev.id)))

/-! ### `routes/events.js`, `POST /` (create event) -/

/-- The body of `POST /` on `routes/events.js`. -/
structure EventRequest where
  title : String
  description : String
  location : String
  district : String
  date : String
  time : Option String
deriving DecidableEq, Repr

/-- The check `body(field).trim().notEmpty()` fails exactly when trimming leaves
nothing, i.e. the field consists solely of whitespace characters. -/
def trimEmpty (s : String) : Bool :=
  s.data.all (fun c => c.isWhitespace)

/-- The `express-validator` chain guarding event creation.  `isISO8601` is the
external `validator.js` date predicate, taken as a parameter; the
`body('time').optional().isString()` check never fails for an optional string
field and contributes no message. -/
def validateEvent (isISO8601 : String → Bool) (r : EventRequest) :
    List String :=
  (if trimEmpty r.title then ["Title is required"] else []) ++
  (if trimEmpty r.description then ["Description is required"] else []) ++
  (if trimEmpty r.location then ["Location is required"] else []) ++
  (if trimEmpty r.district then ["District is required"] else []) ++
  (if isISO8601 r.date then [] else ["Valid date is required"])

/-- The fan-out of `POST /`: `usersToNotify.map(...)` starts one
`createNotification` per user other than the creator, and the handler awaits
them with `Promise.all`.  All writes are started before any rejection is
observed, so every write whose save succeeds is persisted even when others
fail; `fails u` tells whether the write addressed to `u` fails. -/
def eventNotifyLoop (ev : Event) (district : String) (creator : OId)
    (fails : OId → Bool) (users : List OId) (db : Db) : Db :=
  users.foldl (fun d u =>
    if u == creator then d
    else if fails u then d
    else
      addNotification d u "New Event Created"
        ("A new event \"" ++ ev.title ++ "\" has been created in " ++ district)
        "info" (some ("/events/" ++ ev.id))) db

/-- The event document built and saved by `POST /` on `routes/events.js`. -/
def mkEvent (db : Db) (creator : OId) (req : EventRequest) : Event :=
  { id := freshId db, title := req.title, description := req.description,
    location := req.location, district := req.district, date := req.date,
    time := req.time, createdBy := creator, createdAt := db.time }

/-- The store right after `event.save()` in `POST /` on `routes/events.js`. -/
def dbAfterEventInsert (db : Db) (creator : OId) (req : EventRequest) : Db :=
  { db with events := db.events ++ [mkEvent db creator req],
            nextId := db.nextId + 1, time := db.time + 1 }

/-- Handler `POST /` on `routes/events.js` (after `auth` and `checkRole` pass): on
validation failure respond 400; otherwise persist the event, start the
notification fan-out to every user except the creator and await it with
`Promise.all`.  `createNotification` rethrows save errors, so if any fan-out
write fails the `Promise.all` rejects, the handler's catch responds 500, and
the already-saved event (and every fan-out write that succeeded) stays
persisted; only when all writes succeed does the handler respond 201.  File
attachments are not modelled (no claim touches them). -/
def createEvent (isISO8601 : String → Bool) (db : Db) (creator : OId)
    (req : EventRequest) (fails : OId → Bool) : Res Event × Db :=
  let errs := validateEvent isISO8601 req
  if errs ≠ [] then (.badRequest errs, db)
  else
    let ev := mkEvent db creator req
    let db2 := eventNotifyLoop ev req.district creator fails db.users
      (dbAfterEventInsert db creator req)
    if db.users.any (fun u => !(u == creator) && fails u) then
      (.serverError, db2)
    else (.created ev, db2)

/-! ### `middleware/isAdmin.js` -/

/-- The user attached to the request context by `auth`. -/
structure AuthedUser where
  id : OId
  role : String
deriving DecidableEq, Repr

/-- Guard `middleware/isAdmin.js`: the guard denies (403) when there is no resolved
user or the role is neither `admin` nor `Official_member`, and calls `next()`
otherwise.  `true` means the request passes the guard. -/
def isAdmin (user : Option AuthedUser) : Bool :=
  match user with
  | none => false
  | some u => !(u.role != "admin" && u.role != "Official_member")

/-! ### Auxiliary notions used by the statements -/

/-- Predicate stating `sub` occurs contiguously inside `s` (stated on the character lists). -/
def containsStr (s sub : String) : Prop :=
  ∃ p q : List Char, s.data = p ++ sub.data ++ q

/-- Discriminate the 201 responses. -/
def isCreated : Res α → Bool
  | .created _ => true
  | _ => false

/-! ### Concrete sample documents (used by witnesses and counterexamples) -/

/-- An event created by user `u1`. -/
def sampleEvent : Event :=
  { id := "ev1", title := "Tree Drive", description := "d", location := "loc",
    district := "Sangli", date := "2025-01-01", time := none,
    createdBy := "u1", createdAt := 0 }

/-- Two users (`u1` creates `sampleEvent`), no registrations yet. -/
def sampleDb : Db :=
  { users := ["u1", "u2"], events := [sampleEvent], registrations := [],
    notifications := [], nextId := 0, time := 1 }

/-- A well-formed registration request against `sampleEvent`. -/
def sampleRequest : RegisterRequest :=
  { event := "ev1", name := "Asha", email := "asha@example.com", phone := "9",
    age := 30, gender := "female", address := "addr", district := "Sangli",
    taluka := "T", village := "V" }

/-- Variant of `sampleRequest` with an invalid age. -/
def sampleBadRequest : RegisterRequest :=
  { sampleRequest with age := 0 }

/-- A persisted registration against `sampleEvent`. -/
def sampleReg : EventRegistration :=
  { id := "r1", event := "ev1", name := "Asha", email := "asha@example.com",
    phone := "9", age := 30, gender := "female", address := "addr",
    district := "Sangli", taluka := "T", village := "V", status := "pending",
    sharedWith := [], createdAt := 2 }

/-- An older registration against `sampleEvent`. -/
def sampleRegOld : EventRegistration :=
  { sampleReg with id := "r0", name := "Ravi", createdAt := 1 }

/-- Store `sampleDb` with `sampleRegOld` and `sampleReg` persisted. -/
def sampleDb2 : Db :=
  { sampleDb with registrations := [sampleRegOld, sampleReg], nextId := 2,
                  time := 3 }

/-- A well-formed event-creation body. -/
def sampleEventRequest : EventRequest :=
  { title := "Clean Drive", description := "d", location := "l",
    district := "Sangli", date := "2025-02-01", time := none }

/-- A notification for `u1`, unread, stamped `t`. -/
def sampleNotif (i : OId) (t : Nat) : Notification :=
  { id := i, recipient := "u1", title := "T", message := "M", ntype := "info",
    read := false, link := none, createdAt := t }

/-- A store holding three notifications for `u1` and one for `u2`. -/
def sampleDb3 : Db :=
  { users := ["u1", "u2"], events := [], registrations := [],
    notifications :=
      [sampleNotif "n1" 1, sampleNotif "n2" 2,
       { sampleNotif "n3" 3 with recipient := "u2" }, sampleNotif "n4" 4],
    nextId := 4, time := 5 }

end Jataayu

/-! ## Lemmas about the embedding -/

namespace Jataayu

/-- Unfolding one step of the share-notification loop. -/
lemma shareNotifyLoop_cons (ev : Event) (i : OId) (ids : List OId) (d : Db) :
    shareNotifyLoop ev (i :: ids) d =
      shareNotifyLoop ev ids
        (addNotification d i "Event Registration Shared"
          ("Event registration for \"" ++ ev.title ++
            "\" has been shared with you")
          "info" (some ("/event-registrations/" ++ ev.id))) := rfl

/-- Behaviour of the share-notification loop: it appends one notification per
supplied id, in order, and leaves the other collections alone. -/
lemma shareNotifyLoop_spec (ev : Event) (ids : List OId) : ∀ d : Db,
    ∃ new : List Notification,
      (shareNotifyLoop ev ids d).notifications = d.notifications ++ new ∧
      new.map (fun n => n.recipient) = ids ∧
      (∀ n ∈ new, n.title = "Event Registration Shared") ∧
      (shareNotifyLoop ev ids d).registrations = d.registrations ∧
      (shareNotifyLoop ev ids d).events = d.events := by
  induction ids with
  | nil => intro d; exact ⟨[], by simp [shareNotifyLoop], by simp, by simp,
      by simp [shareNotifyLoop], by simp [shareNotifyLoop]⟩
  | cons i ids ih =>
    intro d
    obtain ⟨new, h1, h2, h3, h4, h5⟩ :=
      ih (addNotification d i "Event Registration Shared"
        ("Event registration for \"" ++ ev.title ++
          "\" has been shared with you")
        "info" (some ("/event-registrations/" ++ ev.id)))
    refine ⟨mkNotification (freshId d) i "Event Registration Shared"
      ("Event registration for \"" ++ ev.title ++
        "\" has been shared with you")
      "info" (some ("/event-registrations/" ++ ev.id)) d.time :: new,
      ?_, ?_, ?_, ?_, ?_⟩
    · rw [shareNotifyLoop_cons, h1]
      simp [addNotification]
    · simp [mkNotification, h2]
    · intro n hn
      rcases List.mem_cons.mp hn with h | h
      · rw [h]; rfl
      · exact h3 n h
    · rw [shareNotifyLoop_cons, h4]; rfl
    · rw [shareNotifyLoop_cons, h5]; rfl

/-- Membership in the JavaScript-set union builder. -/
lemma jsSetOfList_mem (x : OId) : ∀ (l seen : List OId),
    x ∈ jsSetOfList seen l ↔ x ∈ l ∧ x ∉ seen := by
  intro l
  induction l with
  | nil => intro seen; simp [jsSetOfList]
  | cons a l ih =>
    intro seen
    by_cases h : seen.contains a
    · rw [jsSetOfList, if_pos h, ih]
      have ha : a ∈ seen := by
        simpa using h
      constructor
      · rintro ⟨hl, hs⟩; exact ⟨List.mem_cons_of_mem _ hl, hs⟩
      · rintro ⟨hl, hs⟩
        rcases List.mem_cons.mp hl with rfl | hl
        · exact absurd ha hs
        · exact ⟨hl, hs⟩
    · rw [jsSetOfList, if_neg h]
      have ha : a ∉ seen := by
        simpa using h
      constructor
      · intro hx
        rcases List.mem_cons.mp hx with rfl | hx
        · exact ⟨List.mem_cons_self _ _, ha⟩
        · rcases (ih (a :: seen)).mp hx with ⟨hl, hs⟩
          refine ⟨List.mem_cons_of_mem _ hl, fun hxs => hs ?_⟩
          exact List.mem_cons_of_mem _ hxs
      · rintro ⟨hl, hs⟩
        rcases List.mem_cons.mp hl with rfl | hl
        · exact List.mem_cons_self _ _
        · by_cases hxa : x = a
          · subst hxa; exact List.mem_cons_self _ _
          · exact List.mem_cons_of_mem _ ((ih (a :: seen)).mpr
              ⟨hl, by simp [hxa, hs]⟩)

/-- The JavaScript-set union builder yields duplicate-free lists. -/
lemma jsSetOfList_nodup : ∀ (l seen : List OId), (jsSetOfList seen l).Nodup := by
  intro l
  induction l with
  | nil => intro seen; simp [jsSetOfList]
  | cons a l ih =>
    intro seen
    by_cases h : seen.contains a
    · rw [jsSetOfList, if_pos h]; exact ih seen
    · rw [jsSetOfList, if_neg h]
      refine List.nodup_cons.mpr ⟨?_, ih (a :: seen)⟩
      intro ha
      exact ((jsSetOfList_mem a l (a :: seen)).mp ha).2 (List.mem_cons_self _ _)

/-- Unfolding one step of the event-creation fan-out. -/
lemma eventNotifyLoop_cons (ev : Event) (district : String) (creator : OId)
    (fails : OId → Bool) (u : OId) (us : List OId) (d : Db) :
    eventNotifyLoop ev district creator fails (u :: us) d =
      eventNotifyLoop ev district creator fails us
        (if u == creator then d
         else if fails u then d
         else
           addNotification d u "New Event Created"
             ("A new event \"" ++ ev.title ++ "\" has been created in " ++
               district)
             "info" (some ("/events/" ++ ev.id))) := rfl

/-- Behaviour of the event-creation fan-out: it appends, in order, one
notification per listed user other than the creator whose write succeeds, and
leaves the other collections alone. -/
lemma eventNotifyLoop_spec (ev : Event) (district : String) (creator : OId)
    (fails : OId → Bool) (us : List OId) : ∀ d : Db,
    ∃ new : List Notification,
      (eventNotifyLoop ev district creator fails us d).notifications =
        d.notifications ++ new ∧
      new.map (fun n => n.recipient) =
        us.filter (fun u => !(u == creator) && !(fails u)) ∧
      (∀ n ∈ new,
        n.title = "New Event Created" ∧
        n.message =
          "A new event \"" ++ ev.title ++ "\" has been created in " ++
            district ∧
        n.link = some ("/events/" ++ ev.id)) ∧
      (eventNotifyLoop ev district creator fails us d).events = d.events := by
  induction us with
  | nil =>
    intro d
    exact ⟨[], by simp [eventNotifyLoop], by simp, by simp,
      by simp [eventNotifyLoop]⟩
  | cons u us ih =>
    intro d
    by_cases hc : u == creator
    · obtain ⟨new, h1, h2, h3, h4⟩ := ih d
      refine ⟨new, ?_, ?_, h3, ?_⟩
      · rw [eventNotifyLoop_cons, if_pos hc]; exact h1
      · rw [h2, List.filter_cons]
        simp [hc]
      · rw [eventNotifyLoop_cons, if_pos hc]; exact h4
    · by_cases hf : fails u
      · obtain ⟨new, h1, h2, h3, h4⟩ := ih d
        refine ⟨new, ?_, ?_, h3, ?_⟩
        · rw [eventNotifyLoop_cons, if_neg hc, if_pos hf]; exact h1
        · rw [h2, List.filter_cons]
          simp [hc, hf]
        · rw [eventNotifyLoop_cons, if_neg hc, if_pos hf]; exact h4
      · obtain ⟨new, h1, h2, h3, h4⟩ :=
          ih (addNotification d u "New Event Created"
            ("A new event \"" ++ ev.title ++ "\" has been created in " ++
              district)
            "info" (some ("/events/" ++ ev.id)))
        refine ⟨mkNotification (freshId d) u "New Event Created"
          ("A new event \"" ++ ev.title ++ "\" has been created in " ++
            district)
          "info" (some ("/events/" ++ ev.id)) d.time :: new, ?_, ?_, ?_, ?_⟩
        · rw [eventNotifyLoop_cons, if_neg hc, if_neg hf, h1]
          simp [addNotification]
        · rw [List.filter_cons]
          simp [mkNotification, hc, hf, h2]
        · intro n hn
          rcases List.mem_cons.mp hn with h | h
          · rw [h]; exact ⟨rfl, rfl, rfl⟩
          · exact h3 n h
        · rw [eventNotifyLoop_cons, if_neg hc, if_neg hf, h4]; rfl

/-- The function `markRead` leaves a document of another recipient untouched. -/
lemma markRead_of_ne {u : OId} {n : Notification} (h : ¬n.recipient = u) :
    markRead u n = n := by
  simp [markRead, h]

/-- The function `markRead` never changes the recipient. -/
lemma markRead_recipient (u : OId) (n : Notification) :
    (markRead u n).recipient = n.recipient := by
  unfold markRead
  split <;> rfl

/-- After `markRead`, a matching document is read. -/
lemma markRead_read_of_recipient {u : OId} {n : Notification}
    (h : n.recipient = u) : (markRead u n).read = true := by
  by_cases h2 : n.read <;> simp [markRead, h, h2]

/-- The function `markRead` is idempotent on a single document. -/
lemma markRead_idem (u : OId) (n : Notification) :
    markRead u (markRead u n) = markRead u n := by
  by_cases h1 : n.recipient = u
  · by_cases h2 : n.read <;> simp [markRead, h1, h2]
  · simp [markRead, h1]

/-- After `markAllAsRead`, no notification of the recipient is unread. -/
lemma unread_after_markAll (l : List Notification) (u : OId) :
    (l.map (markRead u)).filter (fun n => n.recipient == u && !n.read) = [] := by
  rw [List.filter_eq_nil_iff]
  intro a ha
  rcases List.mem_map.mp ha with ⟨b, _, rfl⟩
  by_cases hr : b.recipient = u
  · rw [Bool.not_eq_true]
    rw [markRead_read_of_recipient hr]
    simp
  · rw [markRead_of_ne hr]
    simp [hr]

/-- The map underlying `markAllAsRead` is pointwise idempotent on the stored documents. -/
lemma markAll_map_idem (l : List Notification) (u : OId) :
    (l.map (markRead u)).map (markRead u) = l.map (markRead u) := by
  rw [List.map_map]
  apply List.map_congr_left
  intro a _
  simp only [Function.comp_apply]
  exact markRead_idem u a

/-- The map underlying `markAllAsRead` does not touch notifications of other recipients. -/
lemma markAll_keeps_others (l : List Notification) (u : OId) :
    (l.map (markRead u)).filter (fun n => !(n.recipient == u)) =
      l.filter (fun n => !(n.recipient == u)) := by
  induction l with
  | nil => rfl
  | cons n l ih =>
    simp only [List.map_cons, List.filter_cons]
    by_cases hr : n.recipient = u
    · have e1 : (!((markRead u n).recipient == u)) = false := by
        rw [markRead_recipient]; simp [hr]
      have e2 : (!(n.recipient == u)) = false := by simp [hr]
      rw [e1, e2]
      simpa using ih
    · have e1 : (!((markRead u n).recipient == u)) = true := by
        rw [markRead_recipient]; simp [hr]
      have e2 : (!(n.recipient == u)) = true := by simp [hr]
      rw [e1, e2, markRead_of_ne hr]
      simpa using ih

/-- Membership helper for the validator segments of shape
`if c then [msg] else []`. -/
lemma mem_ite_left {c : Prop} [Decidable c] (a b : String) :
    (a ∈ if c then [b] else ([] : List String)) ↔ c ∧ a = b := by
  split_ifs with h <;> simp [h]

/-- Membership helper for the validator segments of shape
`if c then [] else [msg]`. -/
lemma mem_ite_right {c : Prop} [Decidable c] (a b : String) :
    (a ∈ if c then ([] : List String) else [b]) ↔ ¬c ∧ a = b := by
  split_ifs with h <;> simp [h]

/-- On a failing validation, `register` responds 400 with the collected
messages and changes nothing. -/
lemma register_eq_badRequest (isEmail : String → Bool) (db : Db)
    (req : RegisterRequest) (notifOk : Bool)
    (hne : validateRegistration isEmail req ≠ []) :
    register isEmail db req notifOk =
      (.badRequest (validateRegistration isEmail req), db) := by
  unfold register
  simp [hne]

/-- On passing validation with an unresolvable event id, `register` responds
404 and changes nothing. -/
lemma register_eq_notFound (isEmail : String → Bool) (db : Db)
    (req : RegisterRequest) (notifOk : Bool)
    (hv : validateRegistration isEmail req = [])
    (hev : findEvent db req.event = none) :
    register isEmail db req notifOk = (.notFound, db) := by
  unfold register
  rw [hv, hev]
  simp

/-- The success path of `register`, unfolded. -/
lemma register_valid_found (isEmail : String → Bool) (db : Db)
    (req : RegisterRequest) (notifOk : Bool) (ev : Event)
    (hv : validateRegistration isEmail req = [])
    (hev : findEvent db req.event = some ev) :
    register isEmail db req notifOk =
      (let reg : EventRegistration :=
        { id := freshId db, event := req.event, name := req.name,
          email := req.email, phone := req.phone, age := req.age,
          gender := req.gender, address := req.address,
          district := req.district, taluka := req.taluka,
          village := req.village, status := "pending", sharedWith := [],
          createdAt := db.time }
      let db1 : Db :=
        { db with registrations := db.registrations ++ [reg],
                  nextId := db.nextId + 1, time := db.time + 1 }
      if notifOk then
        (.ok reg,
         addNotification db1 ev.createdBy "New Event Registration"
           (req.name ++ " has registered for your event \"" ++ ev.title ++
             "\"")
           "info" (some ("/event-registrations/" ++ ev.id)))
      else (.serverError, db1)) := by
  unfold register
  rw [hv, hev]
  simp

/-- The post-validation path of `POST /` on `routes/events.js`, unfolded. -/
lemma createEvent_valid (isISO8601 : String → Bool) (db : Db) (creator : OId)
    (req : EventRequest) (fails : OId → Bool)
    (hv : validateEvent isISO8601 req = []) :
    createEvent isISO8601 db creator req fails =
      (if db.users.any (fun u => !(u == creator) && fails u) then
        (.serverError,
         eventNotifyLoop (mkEvent db creator req) req.district creator fails
           db.users (dbAfterEventInsert db creator req))
      else
        (.created (mkEvent db creator req),
         eventNotifyLoop (mkEvent db creator req) req.district creator fails
           db.users (dbAfterEventInsert db creator req))) := by
  unfold createEvent
  rw [hv]
  simp

end Jataayu

/-! ## The claims -/

namespace Jataayu

/-- C7: a successful event creation (valid body, all notification writes
succeed) responds 201 and produces exactly one "new event" notification per
existing user other than the creator — none for the creator — each carrying
the deep-link `/events/\x7bid\x7d` of the new event and a message containing the
event's district. -/
theorem claim_C7_create_event_fanout (isISO8601 : String → Bool) (db : Db)
    (creator : OId) (req : EventRequest) (fails : OId → Bool)
    (hv : validateEvent isISO8601 req = [])
    (hok : ∀ u ∈ db.users, ¬u = creator → fails u = false) :
    ∃ ev new,
      (createEvent isISO8601 db creator req fails).1 = .created ev ∧
      ev.district = req.district ∧
      ((createEvent isISO8601 db creator req fails).2).notifications =
        db.notifications ++ new ∧
      new.map (fun n => n.recipient) =
        db.users.filter (fun u => !(u == creator)) ∧
      new.length = (db.users.filter (fun u => !(u == creator))).length ∧
      (∀ n ∈ new, ¬n.recipient = creator ∧
        n.link = some ("/events/" ++ ev.id) ∧
        containsStr n.message req.district) := by
  have hany : db.users.any (fun u => !(u == creator) && fails u) = false := by
    rw [List.any_eq_false]
    intro u hu
    by_cases hc : u = creator
    · simp [hc]
    · simp [hc, hok u hu hc]
  have hce : createEvent isISO8601 db creator req fails =
      (.created (mkEvent db creator req),
       eventNotifyLoop (mkEvent db creator req) req.district creator fails
         db.users (dbAfterEventInsert db creator req)) := by
    rw [createEvent_valid isISO8601 db creator req fails hv, hany]
    rfl
  obtain ⟨new, h1, h2, h3, _⟩ :=
    eventNotifyLoop_spec (mkEvent db creator req) req.district creator fails
      db.users (dbAfterEventInsert db creator req)
  have hfil : db.users.filter (fun u => !(u == creator) && !(fails u)) =
      db.users.filter (fun u => !(u == creator)) := by
    apply List.filter_congr
    intro u hu
    by_cases hc : u = creator
    · simp [hc]
    · simp [hc, hok u hu hc]
  refine ⟨mkEvent db creator req, new, by rw [hce], rfl, ?_, ?_, ?_, ?_⟩
  · rw [hce]
    exact h1
  · rw [h2, hfil]
  · have := congrArg List.length h2
    rw [List.length_map] at this
    rw [this, hfil]
  · intro n hn
    have hrec : n.recipient ∈ db.users.filter (fun u => !(u == creator)) := by
      rw [← hfil, ← h2]
      exact List.mem_map_of_mem _ hn
    have hne : ¬n.recipient = creator := by
      have := (List.mem_filter.mp hrec).2
      simpa using this
    obtain ⟨-, hmsg, hlink⟩ := h3 n hn
    refine ⟨hne, ?_, ?_⟩
    · rw [hlink]
    · rw [hmsg]
      refine ⟨("A new event \"" ++ (mkEvent db creator req).title ++
        "\" has been created in ").data, [], ?_⟩
      simp

/-- C7 (witness): the fan-out theorem applied to `sampleDb` (users `u1` and
`u2`), creator `u1`, with no failing writes. -/
theorem claim_C7_witness :
    validateEvent (fun _ => true) sampleEventRequest = [] ∧
    (∀ u ∈ sampleDb.users, ¬u = "u1" → (fun _ : OId => false) u = false) ∧
    (∃ ev new,
      (createEvent (fun _ => true) sampleDb "u1" sampleEventRequest
        (fun _ => false)).1 = .created ev ∧
      ev.district = sampleEventRequest.district ∧
      ((createEvent (fun _ => true) sampleDb "u1" sampleEventRequest
        (fun _ => false)).2).notifications =
        sampleDb.notifications ++ new ∧
      new.map (fun n => n.recipient) =
        sampleDb.users.filter (fun u => !(u == "u1")) ∧
      new.length = (sampleDb.users.filter (fun u => !(u == "u1"))).length ∧
      (∀ n ∈ new, ¬n.recipient = "u1" ∧
        n.link = some ("/events/" ++ ev.id) ∧
        containsStr n.message sampleEventRequest.district)) :=
  ⟨by decide, by decide,
    claim_C7_create_event_fanout (fun _ => true) sampleDb "u1"
      sampleEventRequest (fun _ => false) (by decide) (by decide)⟩

/-- C2 (amended): a failing fan-out notification write is not discarded: the
event itself stays persisted (it is saved before the fan-out and never
rolled back), but the event-creation caller receives a 500 ServerError
whenever any per-user write fails, and gets the 201 Created response only
when every write succeeds. -/
theorem claim_C2_amended_fanout_failures (isISO8601 : String → Bool)
    (db : Db) (creator : OId) (req : EventRequest) (fails : OId → Bool)
    (hv : validateEvent isISO8601 req = []) :
    (∃ ev, ((createEvent isISO8601 db creator req fails).2).events =
        db.events ++ [ev]) ∧
    ((∃ u, u ∈ db.users ∧ ¬u = creator ∧ fails u = true) →
      (createEvent isISO8601 db creator req fails).1 = .serverError) ∧
    ((∀ u ∈ db.users, ¬u = creator → fails u = false) →
      ∃ ev, (createEvent isISO8601 db creator req fails).1 =
        .created ev) := by
  rw [createEvent_valid isISO8601 db creator req fails hv]
  obtain ⟨new, h1, h2, h3, h4⟩ :=
    eventNotifyLoop_spec (mkEvent db creator req) req.district creator fails
      db.users (dbAfterEventInsert db creator req)
  refine ⟨?_, ?_, ?_⟩
  · refine ⟨mkEvent db creator req, ?_⟩
    have hbase : (dbAfterEventInsert db creator req).events =
        db.events ++ [mkEvent db creator req] := rfl
    by_cases hany :
        db.users.any (fun u => !(u == creator) && fails u) = true
    · simp only [hany, if_true]
      rw [h4, hbase]
    · rw [Bool.not_eq_true] at hany
      simp only [hany, Bool.false_eq_true, if_false]
      rw [h4, hbase]
  · intro ⟨u, hu, hne, hf⟩
    have hany : db.users.any (fun u => !(u == creator) && fails u) = true := by
      rw [List.any_eq_true]
      exact ⟨u, hu, by simp [hne, hf]⟩
    simp only [hany, if_true]
  · intro hok
    have hany : db.users.any
        (fun u => !(u == creator) && fails u) = false := by
      rw [List.any_eq_false]
      intro u hu
      by_cases hc : u = creator
      · simp [hc]
      · simp [hc, hok u hu hc]
    simp only [hany, Bool.false_eq_true, if_false]
    exact ⟨_, rfl⟩

/-- C2 (amended, witness): the amended fan-out theorem applied to `sampleDb`
with creator `u1` and the write to `u2` failing: the event is persisted and
the response is 500. -/
theorem claim_C2_amended_witness :
    validateEvent (fun _ => true) sampleEventRequest = [] ∧
    ((∃ ev, ((createEvent (fun _ => true) sampleDb "u1" sampleEventRequest
        (fun u => u == "u2")).2).events = sampleDb.events ++ [ev]) ∧
    ((∃ u, u ∈ sampleDb.users ∧ ¬u = "u1" ∧ (u == "u2") = true) →
      (createEvent (fun _ => true) sampleDb "u1" sampleEventRequest
        (fun u => u == "u2")).1 = .serverError) ∧
    ((∀ u ∈ sampleDb.users, ¬u = "u1" → (u == "u2") = false) →
      ∃ ev, (createEvent (fun _ => true) sampleDb "u1" sampleEventRequest
        (fun u => u == "u2")).1 = .created ev)) :=
  ⟨by decide,
    claim_C2_amended_fanout_failures (fun _ => true) sampleDb "u1"
      sampleEventRequest (fun u => u == "u2") (by decide)⟩

/-- C9: for every recipient, `markAllAsRead` leaves the recipient with zero
unread notifications, is idempotent (a second call changes nothing and the
unread count stays zero), and does not touch notifications of other
recipients. -/
theorem claim_C9_markAllAsRead_idempotent (db : Db) (userId : OId) :
    getUnreadCount (markAllAsRead db userId) userId = 0 ∧
    markAllAsRead (markAllAsRead db userId) userId = markAllAsRead db userId ∧
    getUnreadCount (markAllAsRead (markAllAsRead db userId) userId) userId = 0 ∧
    (markAllAsRead db userId).notifications.filter
        (fun n => !(n.recipient == userId)) =
      db.notifications.filter (fun n => !(n.recipient == userId)) := by
  have h1 : getUnreadCount (markAllAsRead db userId) userId = 0 := by
    show ((db.notifications.map (markRead userId)).filter
      (fun n => n.recipient == userId && !n.read)).length = 0
    rw [unread_after_markAll]
    rfl
  have h2 : markAllAsRead (markAllAsRead db userId) userId =
      markAllAsRead db userId := by
    simp only [markAllAsRead]
    rw [markAll_map_idem]
  have h3 : getUnreadCount (markAllAsRead (markAllAsRead db userId) userId)
      userId = 0 := by
    rw [h2]; exact h1
  have h4 : (markAllAsRead db userId).notifications.filter
      (fun n => !(n.recipient == userId)) =
      db.notifications.filter (fun n => !(n.recipient == userId)) := by
    show (db.notifications.map (markRead userId)).filter
        (fun n => !(n.recipient == userId)) =
      db.notifications.filter (fun n => !(n.recipient == userId))
    exact markAll_keeps_others db.notifications userId
  exact ⟨h1, h2, h3, h4⟩

/-- C10: the `isAdmin` guard passes exactly when the resolved user's role is
`admin` or `Official_member`; requests with no resolved user, or with roles
such as `block_officer`, `public` or anything else, are denied, while
`Official_member` passes despite the guard's name. -/
theorem claim_C10_isAdmin_role_gate (u : Option AuthedUser) :
    (isAdmin u = true ↔
      ∃ a, u = some a ∧ (a.role = "admin" ∨ a.role = "Official_member")) ∧
    isAdmin none = false ∧
    isAdmin (some ⟨"u1", "block_officer"⟩) = false ∧
    isAdmin (some ⟨"u2", "public"⟩) = false ∧
    isAdmin (some ⟨"u3", "guest"⟩) = false ∧
    isAdmin (some ⟨"u4", "Official_member"⟩) = true ∧
    isAdmin (some ⟨"u5", "admin"⟩) = true := by
  refine ⟨?_, by decide, by decide, by decide, by decide, by decide, by decide⟩
  cases u with
  | none => simp [isAdmin]
  | some a => simp [isAdmin]

/-- C3: `listForEvent` returns NotFound for a missing event and, called by
the creator, returns the event's registrations newest first; but a requester
who is neither the creator nor "shared with" receives a 500 server error
instead of the documented 403, because the Event schema defines no
`sharedWith` path and `event.sharedWith.includes(...)` throws.  The second
conjunct evaluates the code at the failing input (requester `u2` on an event
created by `u1`). -/
theorem claim_C3_listForEvent_behavior :
    listForEvent sampleDb2 "u1" "ev1" =
      (.ok [sampleReg, sampleRegOld], sampleDb2) ∧
    listForEvent sampleDb2 "u2" "ev1" = (.serverError, sampleDb2) ∧
    listForEvent sampleDb2 "u1" "missing" = (.notFound, sampleDb2) := by
  refine ⟨?_, ?_, ?_⟩ <;> decide

/-- C1: a registration request that passes validation against an existing
event persists the registration with status `pending`; when the notification
write succeeds, exactly one new notification exists, addressed to the
event's creator, whose message contains the registrant's name and the
event's title; when the notification write fails, the handler responds 500
but the already-persisted registration is not rolled back (and no
notification is stored). -/
theorem claim_C1_register_persists_and_notifies (isEmail : String → Bool)
    (db : Db) (req : RegisterRequest) (notifOk : Bool)
    (hv : validateRegistration isEmail req = []) :
    ∀ ev, findEvent db req.event = some ev →
    (∃ reg, ((register isEmail db req notifOk).2).registrations =
        db.registrations ++ [reg] ∧
      reg.status = "pending" ∧ reg.name = req.name ∧ reg.event = req.event) ∧
    (notifOk = true →
      ∃ n, ((register isEmail db req notifOk).2).notifications =
          db.notifications ++ [n] ∧
        n.recipient = ev.createdBy ∧
        containsStr n.message req.name ∧ containsStr n.message ev.title) ∧
    (notifOk = false →
      ((register isEmail db req notifOk).2).notifications =
        db.notifications ∧
      (register isEmail db req notifOk).1 = .serverError) := by
  intro ev hev
  cases notifOk with
  | true =>
    rw [register_valid_found isEmail db req true ev hv hev]
    refine ⟨⟨_, rfl, rfl, rfl, rfl⟩, fun _ => ⟨_, rfl, rfl, ?_, ?_⟩,
      fun h => by cases h⟩
    · refine ⟨[],
        (" has registered for your event \"" ++ ev.title ++ "\"").data, ?_⟩
      simp [mkNotification]
    · refine ⟨(req.name ++ " has registered for your event \"").data,
        ("\"").data, ?_⟩
      simp [mkNotification]
  | false =>
    rw [register_valid_found isEmail db req false ev hv hev]
    refine ⟨⟨_, rfl, rfl, rfl, rfl⟩, fun h => ?_, fun _ => ⟨rfl, rfl⟩⟩
    cases h

/-- C1 (witness): the registration theorem applied to the concrete store
`sampleDb` and the concrete request `sampleRequest`, with the notification
write succeeding. -/
theorem claim_C1_witness :
    validateRegistration (fun _ => true) sampleRequest = [] ∧
    findEvent sampleDb sampleRequest.event = some sampleEvent ∧
    ((∃ reg,
        ((register (fun _ => true) sampleDb sampleRequest true).2
          ).registrations = sampleDb.registrations ++ [reg] ∧
      reg.status = "pending" ∧ reg.name = sampleRequest.name ∧
      reg.event = sampleRequest.event) ∧
    (true = true →
      ∃ n, ((register (fun _ => true) sampleDb sampleRequest true).2
          ).notifications = sampleDb.notifications ++ [n] ∧
        n.recipient = sampleEvent.createdBy ∧
        containsStr n.message sampleRequest.name ∧
        containsStr n.message sampleEvent.title) ∧
    (true = false →
      ((register (fun _ => true) sampleDb sampleRequest true).2
        ).notifications = sampleDb.notifications ∧
      (register (fun _ => true) sampleDb sampleRequest true).1 =
        .serverError)) :=
  ⟨by decide, by decide,
    claim_C1_register_persists_and_notifies (fun _ => true) sampleDb
      sampleRequest true (by decide) sampleEvent (by decide)⟩

/-- C6: registering for a nonexistent event responds NotFound; a
non-positive age or a gender outside `male`/`female`/`other` responds with a
ValidationError; in each failure case the store is unchanged (no
registration persisted); and the validator's message list characterises
exactly the violated fields, one message per failing check. -/
theorem claim_C6_register_validation (isEmail : String → Bool) (db : Db)
    (req : RegisterRequest) (notifOk : Bool) :
    (validateRegistration isEmail req = [] → findEvent db req.event = none →
      register isEmail db req notifOk = (.notFound, db)) ∧
    (req.age < 1 →
      register isEmail db req notifOk =
        (.badRequest (validateRegistration isEmail req), db) ∧
      "Age is required" ∈ validateRegistration isEmail req) ∧
    (¬(req.gender = "male" ∨ req.gender = "female" ∨ req.gender = "other") →
      register isEmail db req notifOk =
        (.badRequest (validateRegistration isEmail req), db) ∧
      "Gender is required" ∈ validateRegistration isEmail req) ∧
    ("Event ID is required" ∈ validateRegistration isEmail req ↔
      req.event = "") ∧
    ("Name is required" ∈ validateRegistration isEmail req ↔
      req.name = "") ∧
    ("Please include a valid email" ∈ validateRegistration isEmail req ↔
      ¬isEmail req.email) ∧
    ("Phone number is required" ∈ validateRegistration isEmail req ↔
      req.phone = "") ∧
    ("Age is required" ∈ validateRegistration isEmail req ↔
      ¬(1 ≤ req.age)) ∧
    ("Gender is required" ∈ validateRegistration isEmail req ↔
      ¬(req.gender = "male" ∨ req.gender = "female" ∨
        req.gender = "other")) ∧
    ("Address is required" ∈ validateRegistration isEmail req ↔
      req.address = "") ∧
    ("District is required" ∈ validateRegistration isEmail req ↔
      req.district = "") ∧
    ("Taluka is required" ∈ validateRegistration isEmail req ↔
      req.taluka = "") ∧
    ("Village is required" ∈ validateRegistration isEmail req ↔
      req.village = "") := by
  refine ⟨?_, ?_, ?_, ?_, ?_, ?_, ?_, ?_, ?_, ?_, ?_, ?_, ?_⟩
  · intro hv hev
    exact register_eq_notFound isEmail db req notifOk hv hev
  · intro h
    have h1 : ¬(1 : Int) ≤ req.age := by omega
    have hmem : "Age is required" ∈ validateRegistration isEmail req := by
      simp [validateRegistration, h1]
    have hne : validateRegistration isEmail req ≠ [] := by
      intro h0
      rw [h0] at hmem
      exact (List.not_mem_nil _) hmem
    exact ⟨register_eq_badRequest isEmail db req notifOk hne, hmem⟩
  · intro h
    have hmem : "Gender is required" ∈ validateRegistration isEmail req := by
      simp [validateRegistration, h]
    have hne : validateRegistration isEmail req ≠ [] := by
      intro h0
      rw [h0] at hmem
      exact (List.not_mem_nil _) hmem
    exact ⟨register_eq_badRequest isEmail db req notifOk hne, hmem⟩
  · simp [validateRegistration, mem_ite_left, mem_ite_right]
  · simp [validateRegistration, mem_ite_left, mem_ite_right]
  · simp [validateRegistration, mem_ite_left, mem_ite_right]
  · simp [validateRegistration, mem_ite_left, mem_ite_right]
  · simp [validateRegistration, mem_ite_left, mem_ite_right]
  · simp [validateRegistration, mem_ite_left, mem_ite_right]
  · simp [validateRegistration, mem_ite_left, mem_ite_right]
  · simp [validateRegistration, mem_ite_left, mem_ite_right]
  · simp [validateRegistration, mem_ite_left, mem_ite_right]
  · simp [validateRegistration, mem_ite_left, mem_ite_right]

/-- C6 (witness): the validation theorem applied to `sampleBadRequest`
(age 0): the handler responds 400, the store is untouched, and
`Age is required` is among the reported messages. -/
theorem claim_C6_witness :
    sampleBadRequest.age < 1 ∧
    (register (fun _ => true) sampleDb sampleBadRequest true =
      (.badRequest (validateRegistration (fun _ => true) sampleBadRequest),
        sampleDb) ∧
     "Age is required" ∈
       validateRegistration (fun _ => true) sampleBadRequest) :=
  ⟨by decide,
    (claim_C6_register_validation (fun _ => true) sampleDb sampleBadRequest
      true).2.1 (by decide)⟩

/-- C8: for every recipient and positive 1-based page and limit,
`getUserNotifications` returns at most `limit` notifications of that
recipient, ordered most-recent-first, skipping `(page - 1) * limit` items of
the full newest-first listing, and `totalPages` is the ceiling of
`totalMatching / limit` (characterised by the two bounds
`total ≤ limit * totalPages < total + limit`). -/
theorem claim_C8_getUserNotifications_pagination (db : Db) (userId : OId)
    (page limit : Nat) (hp : 1 ≤ page) (hl : 1 ≤ limit) :
    (getUserNotifications db userId page limit).notifications.length ≤ limit ∧
    List.Sorted notifNewestFirst
      (getUserNotifications db userId page limit).notifications ∧
    (∀ n ∈ (getUserNotifications db userId page limit).notifications,
      n.recipient = userId) ∧
    (∀ i : Nat, i < limit →
      (getUserNotifications db userId page limit).notifications[i]? =
        (notificationsFor db userId)[(page - 1) * limit + i]?) ∧
    (db.notifications.filter (fun n => n.recipient == userId)).length ≤
      limit * (getUserNotifications db userId page limit).totalPages ∧
    limit * (getUserNotifications db userId page limit).totalPages <
      (db.notifications.filter (fun n => n.recipient == userId)).length +
        limit := by
  have hnot : (getUserNotifications db userId page limit).notifications =
      ((notificationsFor db userId).drop ((page - 1) * limit)).take limit := rfl
  have htp : (getUserNotifications db userId page limit).totalPages =
      ((db.notifications.filter (fun n => n.recipient == userId)).length +
        limit - 1) / limit := rfl
  have hsub : List.Sublist
      (((notificationsFor db userId).drop ((page - 1) * limit)).take limit)
      (notificationsFor db userId) :=
    (List.take_sublist _ _).trans (List.drop_sublist _ _)
  refine ⟨?_, ?_, ?_, ?_, ?_, ?_⟩
  · rw [hnot, List.length_take]
    exact min_le_left _ _
  · rw [hnot]
    exact List.Pairwise.sublist hsub
      (List.sorted_insertionSort notifNewestFirst _)
  · intro n hn
    rw [hnot] at hn
    have h1 : n ∈ notificationsFor db userId := hsub.subset hn
    rw [notificationsFor, List.mem_insertionSort] at h1
    simpa using (List.mem_filter.mp h1).2
  · intro i hi
    rw [hnot, List.getElem?_take_of_lt hi, List.getElem?_drop]
  · rw [htp, Nat.mul_comm]
    have h1 : (db.notifications.filter
          (fun n => n.recipient == userId)).length + limit - 1 <
        ((db.notifications.filter
          (fun n => n.recipient == userId)).length + limit - 1) / limit *
          limit + limit :=
      Nat.lt_div_mul_add hl
    omega
  · rw [htp, Nat.mul_comm]
    have h2 : ((db.notifications.filter
          (fun n => n.recipient == userId)).length + limit - 1) / limit *
          limit ≤
        (db.notifications.filter
          (fun n => n.recipient == userId)).length + limit - 1 :=
      Nat.div_mul_le_self _ _
    omega

/-- C8 (witness): the pagination theorem applied to the concrete store
`sampleDb3` with page 2 and limit 2 for recipient `u1`. -/
theorem claim_C8_witness :
    1 ≤ 2 ∧ 1 ≤ 2 ∧
    ((getUserNotifications sampleDb3 "u1" 2 2).notifications.length ≤ 2 ∧
    List.Sorted notifNewestFirst
      (getUserNotifications sampleDb3 "u1" 2 2).notifications ∧
    (∀ n ∈ (getUserNotifications sampleDb3 "u1" 2 2).notifications,
      n.recipient = "u1") ∧
    (∀ i : Nat, i < 2 →
      (getUserNotifications sampleDb3 "u1" 2 2).notifications[i]? =
        (notificationsFor sampleDb3 "u1")[(2 - 1) * 2 + i]?) ∧
    (sampleDb3.notifications.filter (fun n => n.recipient == "u1")).length ≤
      2 * (getUserNotifications sampleDb3 "u1" 2 2).totalPages ∧
    2 * (getUserNotifications sampleDb3 "u1" 2 2).totalPages <
      (sampleDb3.notifications.filter (fun n => n.recipient == "u1")).length +
        2) :=
  ⟨by decide, by decide,
    claim_C8_getUserNotifications_pagination sampleDb3 "u1" 2 2
      (by decide) (by decide)⟩

/-- C4: for a registration whose event exists, `share` called by the event's
creator replaces `sharedWith` by the deduplicated union of the old list and
the supplied ids (so repeated sharing is an idempotent union), persists the
updated registration, and issues one notification per supplied user id on
every call; any requester other than the creator receives Forbidden. -/
theorem claim_C4_share_union (db : Db) (requester rid : OId)
    (ids : List OId) :
    (∀ reg ev, findRegistration db rid = some reg →
      findEvent db reg.event = some ev → ev.createdBy = requester →
      ∃ reg',
        (share db requester rid (some ids)).1 = .ok reg' ∧
        (∀ x, x ∈ reg'.sharedWith ↔ x ∈ reg.sharedWith ∨ x ∈ ids) ∧
        reg'.sharedWith.Nodup ∧
        reg' ∈ ((share db requester rid (some ids)).2).registrations ∧
        (∃ new, ((share db requester rid (some ids)).2).notifications =
            db.notifications ++ new ∧
          new.map (fun n => n.recipient) = ids ∧
          ∀ n ∈ new, n.title = "Event Registration Shared")) ∧
    (∀ reg ev, findRegistration db rid = some reg →
      findEvent db reg.event = some ev → ¬ev.createdBy = requester →
      share db requester rid (some ids) = (.forbidden, db)) := by
  constructor
  · intro reg ev hr he heq
    have hcond : ¬ev.createdBy ≠ requester := by simp [heq]
    have hshare : share db requester rid (some ids) =
        (.ok { reg with
            sharedWith := jsSetOfList [] (reg.sharedWith ++ ids) },
          shareNotifyLoop ev ids (saveRegistration db
            { reg with
              sharedWith := jsSetOfList [] (reg.sharedWith ++ ids) })) := by
      simp only [share, hr, he]
      simp [hcond]
    obtain ⟨new, h1, h2, h3, h4, _⟩ :=
      shareNotifyLoop_spec ev ids (saveRegistration db
        { reg with sharedWith := jsSetOfList [] (reg.sharedWith ++ ids) })
    refine ⟨{ reg with
        sharedWith := jsSetOfList [] (reg.sharedWith ++ ids) },
      by rw [hshare], ?_, ?_, ?_, ?_⟩
    · intro x
      show x ∈ jsSetOfList [] (reg.sharedWith ++ ids) ↔ _
      rw [jsSetOfList_mem]
      simp
    · exact jsSetOfList_nodup _ _
    · rw [hshare]
      show _ ∈ (shareNotifyLoop ev ids _).registrations
      rw [h4]
      have hmem : reg ∈ db.registrations := List.mem_of_find?_eq_some hr
      refine List.mem_map.mpr ⟨reg, hmem, ?_⟩
      simp
    · refine ⟨new, ?_, h2, h3⟩
      rw [hshare]
      exact h1
  · intro reg ev hr he hne
    simp only [share, hr, he]
    simp [hne]

/-- C4 (witness): the share theorem applied to the concrete store
`sampleDb2`: the creator `u1` shares registration `r1` with `u2` and `u3`. -/
theorem claim_C4_witness :
    findRegistration sampleDb2 "r1" = some sampleReg ∧
    findEvent sampleDb2 sampleReg.event = some sampleEvent ∧
    sampleEvent.createdBy = "u1" ∧
    (∃ reg',
      (share sampleDb2 "u1" "r1" (some ["u2", "u3"])).1 = .ok reg' ∧
      (∀ x, x ∈ reg'.sharedWith ↔
        x ∈ sampleReg.sharedWith ∨ x ∈ ["u2", "u3"]) ∧
      reg'.sharedWith.Nodup ∧
      reg' ∈ ((share sampleDb2 "u1" "r1" (some ["u2", "u3"])).2
        ).registrations ∧
      (∃ new, ((share sampleDb2 "u1" "r1" (some ["u2", "u3"])).2
          ).notifications = sampleDb2.notifications ++ new ∧
        new.map (fun n => n.recipient) = ["u2", "u3"] ∧
        ∀ n ∈ new, n.title = "Event Registration Shared")) :=
  ⟨by decide, by decide, by decide,
    (claim_C4_share_union sampleDb2 "u1" "r1" ["u2", "u3"]).1 sampleReg
      sampleEvent (by decide) (by decide) (by decide)⟩

/-- C5: `updateStatus` responds NotFound when the registration or its event
is missing and Forbidden for any requester other than the event's creator;
for the creator it persists the caller-supplied status string verbatim (any
string, no closed enum) and creates exactly one notification whose recipient
field is the registration's own identifier and whose message quotes the old
and the new status. -/
theorem claim_C5_updateStatus (db : Db) (requester rid : OId)
    (newStatus : String) :
    (findRegistration db rid = none →
      updateStatus db requester rid newStatus = (.notFound, db)) ∧
    (∀ reg, findRegistration db rid = some reg →
      findEvent db reg.event = none →
      updateStatus db requester rid newStatus = (.notFound, db)) ∧
    (∀ reg ev, findRegistration db rid = some reg →
      findEvent db reg.event = some ev → ¬ev.createdBy = requester →
      updateStatus db requester rid newStatus = (.forbidden, db)) ∧
    (∀ reg ev, findRegistration db rid = some reg →
      findEvent db reg.event = some ev → ev.createdBy = requester →
      ∃ reg' n,
        (updateStatus db requester rid newStatus).1 = .ok reg' ∧
        reg'.status = newStatus ∧ reg'.id = reg.id ∧
        reg' ∈ ((updateStatus db requester rid newStatus).2
          ).registrations ∧
        ((updateStatus db requester rid newStatus).2).notifications =
          db.notifications ++ [n] ∧
        n.recipient = reg.id ∧
        containsStr n.message reg.status ∧
        containsStr n.message newStatus) := by
  refine ⟨?_, ?_, ?_, ?_⟩
  · intro hr
    simp only [updateStatus, hr]
  · intro reg hr he
    simp only [updateStatus, hr, he]
  · intro reg ev hr he hne
    simp only [updateStatus, hr, he]
    simp [hne]
  · intro reg ev hr he heq
    have hcond : ¬ev.createdBy ≠ requester := by simp [heq]
    have hupd : updateStatus db requester rid newStatus =
        (.ok { reg with status := newStatus },
         addNotification
           (saveRegistration db { reg with status := newStatus }) reg.id
           "Registration Status Updated"
           ("Your registration status for \"" ++ ev.title ++
            "\" has been updated from " ++ reg.status ++ " to " ++ newStatus)
           "info" (some ("/events/" ++ ev.id))) := by
      simp only [updateStatus, hr, he]
      simp [hcond]
    refine ⟨{ reg with status := newStatus },
      mkNotification
        (freshId (saveRegistration db { reg with status := newStatus }))
        reg.id "Registration Status Updated"
        ("Your registration status for \"" ++ ev.title ++
         "\" has been updated from " ++ reg.status ++ " to " ++ newStatus)
        "info" (some ("/events/" ++ ev.id))
        ((saveRegistration db { reg with status := newStatus }).time),
      by rw [hupd], rfl, rfl, ?_, ?_, rfl, ?_, ?_⟩
    · rw [hupd]
      show _ ∈ (saveRegistration db _).registrations
      have hmem : reg ∈ db.registrations := List.mem_of_find?_eq_some hr
      refine List.mem_map.mpr ⟨reg, hmem, ?_⟩
      simp
    · rw [hupd]
      rfl
    · refine ⟨("Your registration status for \"" ++ ev.title ++
        "\" has been updated from ").data,
        (" to " ++ newStatus).data, ?_⟩
      simp [mkNotification]
    · refine ⟨("Your registration status for \"" ++ ev.title ++
        "\" has been updated from " ++ reg.status ++ " to ").data, [], ?_⟩
      simp [mkNotification]

/-- C5 (witness): the status-update theorem applied to the concrete store
`sampleDb2`: creator `u1` sets registration `r1` to the free-form status
`totally-custom`. -/
theorem claim_C5_witness :
    findRegistration sampleDb2 "r1" = some sampleReg ∧
    findEvent sampleDb2 sampleReg.event = some sampleEvent ∧
    sampleEvent.createdBy = "u1" ∧
    (∃ reg' n,
      (updateStatus sampleDb2 "u1" "r1" "totally-custom").1 = .ok reg' ∧
      reg'.status = "totally-custom" ∧ reg'.id = sampleReg.id ∧
      reg' ∈ ((updateStatus sampleDb2 "u1" "r1" "totally-custom").2
        ).registrations ∧
      ((updateStatus sampleDb2 "u1" "r1" "totally-custom").2
        ).notifications = sampleDb2.notifications ++ [n] ∧
      n.recipient = sampleReg.id ∧
      containsStr n.message sampleReg.status ∧
      containsStr n.message "totally-custom") :=
  ⟨by decide, by decide, by decide,
    (claim_C5_updateStatus sampleDb2 "u1" "r1" "totally-custom").2.2.2
      sampleReg sampleEvent (by decide) (by decide) (by decide)⟩

/-- C2 (counterexample): with two users `u1`, `u2` and a valid event body,
creating an event as `u1` while the notification write to `u2` fails does
not produce a 201: the handler responds 500 (`Promise.all` rejects and
`createNotification` rethrows), even though the event itself is persisted. -/
theorem claim_C2_counterexample :
    isCreated (createEvent (fun _ => true) sampleDb "u1" sampleEventRequest
        (fun u => u == "u2")).1 = false ∧
    (createEvent (fun _ => true) sampleDb "u1" sampleEventRequest
        (fun u => u == "u2")).1 = Res.serverError ∧
    ((createEvent (fun _ => true) sampleDb "u1" sampleEventRequest
        (fun u => u == "u2")).2).events.length =
      sampleDb.events.length + 1 := by
  refine ⟨?_, ?_, ?_⟩ <;> decide

end Jataayu

